import Mathlib

/-!
Verification of the crop-interval logic of the `VideoEditorTimeline` component
(`src/streamlit_video_editor/frontend/src/VideoEditorTimeline.tsx`).

The component's logic core is embedded shallowly:

* JavaScript numbers are modelled by `JSVal`: a rational (`num`) or one of the
  non-finite values `posInf`, `negInf`, `nan`.  Ordinary arithmetic on finite
  values is exact rational arithmetic; the operations used by the source
  (`/`, `*`, `Math.min`, `Math.max`, `<`, `>`) are given their JavaScript
  semantics on the non-finite values, which arise in the code only from the
  division `(e.clientX - timelineLeft) / timelineWidth` when the timeline's
  rendered width is `0`.
* React `useState` fields (`cropMode`, `cropStartTime`, `cropEndTime`,
  `videoDuration`) and the video element's playback position become fields of
  `ComponentState`; `useRef` values consulted by the drag handler
  (`isDraggingRef`, `timelineRef`, `activeMarkerRef`, `videoRef`) become
  explicit arguments, with `Option` for nullable refs.
* `Streamlit.setComponentValue` becomes an explicit emitted value: handlers
  that can emit return `ComponentState × Option ComponentValue`.
-/

/-- A JavaScript number: a finite value (modelled exactly as a rational),
`Infinity`, `-Infinity`, or `NaN`. -/
inductive JSVal where
  | num : ℚ → JSVal
  | posInf : JSVal
  | negInf : JSVal
  | nan : JSVal
deriving DecidableEq, Repr

namespace JSVal

/-- JavaScript `a < b`: any comparison involving `NaN` is `false`;
otherwise the usual order with `-Infinity` least and `Infinity` greatest. -/
def jsLt : JSVal → JSVal → Bool
  | nan, _ => false
  | _, nan => false
  | num a, num b => decide (a < b)
  | num _, posInf => true
  | num _, negInf => false
  | posInf, _ => false
  | negInf, negInf => false
  | negInf, _ => true

/-- JavaScript `a > b`, which has the same semantics as `b < a`
(in particular both are `false` when either operand is `NaN`). -/
def jsGt (a b : JSVal) : Bool := jsLt b a

/-- JavaScript `Math.min`: `NaN` if either argument is `NaN`,
otherwise the smaller argument. -/
def jsMin : JSVal → JSVal → JSVal
  | nan, _ => nan
  | _, nan => nan
  | negInf, _ => negInf
  | _, negInf => negInf
  | posInf, b => b
  | a, posInf => a
  | num a, num b => num (min a b)

/-- JavaScript `Math.max`: `NaN` if either argument is `NaN`,
otherwise the larger argument. -/
def jsMax : JSVal → JSVal → JSVal
  | nan, _ => nan
  | _, nan => nan
  | posInf, _ => posInf
  | _, posInf => posInf
  | negInf, b => b
  | a, negInf => a
  | num a, num b => num (max a b)

/-- JavaScript division of two finite numbers: exact rational division when the
divisor is nonzero; division by zero yields `Infinity`, `-Infinity` or `NaN`
according to the sign of the dividend. -/
def jsDiv (a b : ℚ) : JSVal :=
  if b = 0 then
    if 0 < a then posInf else if a < 0 then negInf else nan
  else
    num (a / b)

/-- JavaScript multiplication of a number by a finite number:
exact on finite values; an infinity times zero is `NaN`, an infinity times a
nonzero finite value is a sign-adjusted infinity; `NaN` propagates. -/
def jsMulQ : JSVal → ℚ → JSVal
  | num a, d => num (a * d)
  | posInf, d => if 0 < d then posInf else if d < 0 then negInf else nan
  | negInf, d => if 0 < d then negInf else if d < 0 then posInf else nan
  | nan, _ => nan

end JSVal

open JSVal

/-- The result of `timelineRef.current.getBoundingClientRect()`: the fields the
drag handler reads (`width` and `left`). -/
structure Rect where
  width : ℚ
  left : ℚ
deriving DecidableEq, Repr

/-- The marker grabbed by a drag session (`activeMarkerRef.current` when
non-null): the source's `'start' | 'end'`.  `end` is a Lean keyword, so the
second constructor is named `end_`. -/
inductive Marker where
  | start : Marker
  | end_ : Marker
deriving DecidableEq, Repr

/-- The component's mutable state relevant to the crop logic: the React state
variables `cropMode`, `cropStartTime`, `cropEndTime`, `videoDuration`, plus the
video element's playback position (`videoRef.current.currentTime`), which the
drag handler writes on accepted candidates. -/
structure ComponentState where
  cropMode : Bool
  cropStartTime : JSVal
  cropEndTime : JSVal
  videoDuration : ℚ
  videoCurrentTime : JSVal
deriving DecidableEq, Repr

/-- The single structured value sent to the host by
`Streamlit.setComponentValue` in `handleCropApply`.  The source field `end`
is named `end_` (`end` is a Lean keyword). -/
structure ComponentValue where
  start : JSVal
  end_ : JSVal
  shouldRefreshTaskList : Bool
deriving DecidableEq, Repr

/-- `handleToggleCrop` (source lines 104–114): when not in crop mode, compute
`startTime = 1.0` and `endTime = Math.max(videoDuration - 1.0,
videoDuration * 0.75)`, store them, and flip `cropMode`; when already in crop
mode, just flip `cropMode` off. -/
def handleToggleCrop (s : ComponentState) : ComponentState :=
  if ¬ s.cropMode then
    let startTime : ℚ := 1
    let endTime : ℚ := max (s.videoDuration - 1) (s.videoDuration * (3 / 4))
    { s with
      cropStartTime := num startTime
      cropEndTime := num endTime
      cropMode := ¬ s.cropMode }
  else
    { s with cropMode := ¬ s.cropMode }

/-- `handleCropApply` (source lines 94–102): emit
`{start: cropStartTime, end: cropEndTime, shouldRefreshTaskList: true}` via
`Streamlit.setComponentValue`, then `setCropMode(false)`. -/
def handleCropApply (s : ComponentState) : ComponentState × ComponentValue :=
  ({ s with cropMode := false },
   { start := s.cropStartTime
     end_ := s.cropEndTime
     shouldRefreshTaskList := true })

/-- The candidate-time computation inside `handleMarkerDrag`
(source lines 126–132):
`position = (e.clientX - timelineLeft) / timelineWidth`,
`position = Math.max(0, Math.min(1, position))`,
`newTime = position * videoDuration`. -/
def derivedCandidateTime (clientX timelineLeft timelineWidth videoDuration : ℚ) :
    JSVal :=
  let position := jsDiv (clientX - timelineLeft) timelineWidth
  let position := jsMax (num 0) (jsMin (num 1) position)
  jsMulQ position videoDuration

/-- The accept/apply step of `handleMarkerDrag` (source lines 134–148): for the
`start` marker the candidate is stored only when `newTime < cropEndTime`, for
the `end` marker only when `newTime > cropStartTime`; on acceptance the video's
playback position is also seeked to `newTime` when `videoRef.current` is
present (`videoPresent`); otherwise the state is returned unchanged. -/
def applyCandidate (marker : Marker) (newTime : JSVal) (videoPresent : Bool)
    (s : ComponentState) : ComponentState :=
  match marker with
  | Marker.start =>
      if jsLt newTime s.cropEndTime then
        { s with
          cropStartTime := newTime
          videoCurrentTime := if videoPresent then newTime else s.videoCurrentTime }
      else s
  | Marker.end_ =>
      if jsGt newTime s.cropStartTime then
        { s with
          cropEndTime := newTime
          videoCurrentTime := if videoPresent then newTime else s.videoCurrentTime }
      else s

/-- `handleMarkerDrag` (source lines 123–149): return unchanged unless
`isDraggingRef.current` is set, `timelineRef.current` is non-null and
`activeMarkerRef.current` is non-null; otherwise derive the candidate time from
the pointer position and the timeline's bounding rectangle and run the
accept/apply step. -/
def handleMarkerDrag (isDragging : Bool) (timelineRef : Option Rect)
    (activeMarker : Option Marker) (clientX : ℚ) (videoPresent : Bool)
    (s : ComponentState) : ComponentState :=
  match isDragging, timelineRef, activeMarker with
  | true, some timeline, some marker =>
      applyCandidate marker
        (derivedCandidateTime clientX timeline.left timeline.width s.videoDuration)
        videoPresent s
  | _, _, _ => s

/-- One pointer-move event as seen by `handleMarkerDrag`: the ref values it
consults and the event's `clientX`. -/
structure DragEvent where
  isDragging : Bool
  timelineRef : Option Rect
  activeMarker : Option Marker
  clientX : ℚ
  videoPresent : Bool
deriving DecidableEq, Repr

/-- A sequence of pointer-move events processed in order by
`handleMarkerDrag`. -/
def dragSequence (s : ComponentState) (events : List DragEvent) : ComponentState :=
  events.foldl
    (fun st e =>
      handleMarkerDrag e.isDragging e.timelineRef e.activeMarker e.clientX
        e.videoPresent st)
    s

/-- The user-interface events that reach the crop logic: the "Modo de Corte"
button (rendered only when `cropMode` is off), the "Aplicar Corte" and
"Cancelar" buttons (rendered only when `cropMode` is on, source lines
314–341), and pointer-move events during a drag. -/
inductive UIEvent where
  | toggleCrop : UIEvent
  | applyCrop : UIEvent
  | cancelCrop : UIEvent
  | drag : DragEvent → UIEvent
deriving DecidableEq, Repr

/-- One step of the component: dispatch a `UIEvent` to its handler, returning
the next state and the value emitted to the host, if any.  Button events fire
only in the mode in which the source renders the button; the "Cancelar"
button's handler is the inline `() => setCropMode(false)` (source line 334). -/
def componentStep (s : ComponentState) (e : UIEvent) :
    ComponentState × Option ComponentValue :=
  match e with
  | UIEvent.toggleCrop =>
      if ¬ s.cropMode then (handleToggleCrop s, none) else (s, none)
  | UIEvent.applyCrop =>
      if s.cropMode then
        let r := handleCropApply s
        (r.1, some r.2)
      else (s, none)
  | UIEvent.cancelCrop =>
      if s.cropMode then ({ s with cropMode := false }, none) else (s, none)
  | UIEvent.drag ev =>
      (handleMarkerDrag ev.isDragging ev.timelineRef ev.activeMarker ev.clientX
        ev.videoPresent s, none)

/-- The dynamic thumbnail count computed in the `loadedmetadata` handler
(source line 60): `Math.min(300, Math.max(50, Math.ceil(duration / 3)))`. -/
def thumbnailCount (duration : ℚ) : ℤ :=
  min 300 (max 50 ⌈duration / 3⌉)

/-- The dynamic waveform count computed in the `loadedmetadata` handler
(source line 65): `Math.min(1000, Math.max(100, Math.ceil(duration * 2)))`. -/
def waveformCount (duration : ℚ) : ℤ :=
  min 1000 (max 100 ⌈duration * 2⌉)

/-- The number of waveform bars rendered (source lines 249–282):
`args.waveform_data && args.waveform_data.length > 0` renders one bar per
supplied sample, otherwise `dynamicWaveformCount` synthetic bars.  `none`
models an absent (null/undefined) `waveform_data` argument. -/
def renderedWaveformCount (waveform_data : Option (List ℚ))
    (dynamicWaveformCount : ℤ) : ℤ :=
  match waveform_data with
  | some l => if 0 < l.length then (l.length : ℤ) else dynamicWaveformCount
  | none => dynamicWaveformCount

/-- The number of frame thumbnails rendered (source lines 221–244):
`args.frame_data && args.frame_data.length > 0` renders one thumbnail per
supplied frame, otherwise `dynamicThumbnailCount` blank placeholders. -/
def renderedThumbnailCount (frame_data : Option (List String))
    (dynamicThumbnailCount : ℤ) : ℤ :=
  match frame_data with
  | some l => if 0 < l.length then (l.length : ℤ) else dynamicThumbnailCount
  | none => dynamicThumbnailCount

/-- A concrete state used to instantiate theorems: crop mode active on a
120-second video with the interval [1, 119] (the default interval for that
duration). -/
def sampleCropState : ComponentState :=
  { cropMode := true
    cropStartTime := num 1
    cropEndTime := num 119
    videoDuration := 120
    videoCurrentTime := num 0 }

/-- A concrete idle state on a 120-second video. -/
def sampleIdleState : ComponentState :=
  { cropMode := false
    cropStartTime := num 0
    cropEndTime := num 0
    videoDuration := 120
    videoCurrentTime := num 0 }

/-- A concrete idle state whose video duration is 1 second. -/
def oneSecondIdleState : ComponentState :=
  { cropMode := false
    cropStartTime := num 0
    cropEndTime := num 0
    videoDuration := 1
    videoCurrentTime := num 0 }

/-- A concrete idle state whose video duration is 0 (metadata not yet
loaded: `videoDuration` keeps its `useState(0)` initial value). -/
def zeroDurationIdleState : ComponentState :=
  { cropMode := false
    cropStartTime := num 0
    cropEndTime := num 0
    videoDuration := 0
    videoCurrentTime := num 0 }

/-- A concrete cropping state on a 120-second video with interval [1, 90],
used to exercise the drag handler when the timeline's rendered width is 0. -/
def zeroWidthDragState : ComponentState :=
  { cropMode := true
    cropStartTime := num 1
    cropEndTime := num 90
    videoDuration := 120
    videoCurrentTime := num 0 }

/-! ### Helper lemmas -/

theorem jsLt_num_num (a b : ℚ) : jsLt (num a) (num b) = decide (a < b) := rfl

theorem jsGt_num_num (a b : ℚ) : jsGt (num a) (num b) = decide (b < a) := rfl

theorem jsLt_nan_left (v : JSVal) : jsLt nan v = false := by
  cases v <;> rfl

theorem jsLt_nan_right (v : JSVal) : jsLt v nan = false := by
  cases v <;> rfl

theorem jsGt_nan_left (v : JSVal) : jsGt nan v = false := by
  cases v <;> rfl

/-- The candidate time computed by the drag handler is always either a finite
number or `NaN`: the clamp `Math.max(0, Math.min(1, position))` eliminates the
infinities that division by a zero width can produce. -/
theorem derivedCandidateTime_num_or_nan (x l w d : ℚ) :
    (∃ q : ℚ, derivedCandidateTime x l w d = num q) ∨
    derivedCandidateTime x l w d = nan := by
  unfold derivedCandidateTime
  rcases h : jsDiv (x - l) w with q | _ | _ | _
  · exact Or.inl ⟨max 0 (min 1 q) * d, rfl⟩
  · exact Or.inl ⟨1 * d, rfl⟩
  · exact Or.inl ⟨0 * d, rfl⟩
  · exact Or.inr rfl

/-- The accept/apply step preserves `start < end` (on finite intervals) for
every candidate that is a finite number or `NaN`. -/
theorem applyCandidate_preserves_lt (m : Marker) (t : JSVal) (vp : Bool)
    (s : ComponentState) (a b : ℚ) (ha : s.cropStartTime = num a)
    (hb : s.cropEndTime = num b) (hab : a < b)
    (ht : (∃ q : ℚ, t = num q) ∨ t = nan) :
    ∃ a' b' : ℚ, (applyCandidate m t vp s).cropStartTime = num a' ∧
      (applyCandidate m t vp s).cropEndTime = num b' ∧ a' < b' := by
  rcases ht with ⟨q, rfl⟩ | rfl
  · cases m with
    | start =>
        by_cases h : q < b
        · refine ⟨q, b, ?_, ?_, h⟩ <;>
            simp [applyCandidate, hb, jsLt_num_num, h]
        · refine ⟨a, b, ?_, ?_, hab⟩ <;>
            simp [applyCandidate, ha, hb, jsLt_num_num, h]
    | end_ =>
        by_cases h : a < q
        · refine ⟨a, q, ?_, ?_, h⟩ <;>
            simp [applyCandidate, ha, jsGt_num_num, h]
        · refine ⟨a, b, ?_, ?_, hab⟩ <;>
            simp [applyCandidate, ha, hb, jsGt_num_num, h]
  · cases m with
    | start =>
        refine ⟨a, b, ?_, ?_, hab⟩ <;>
          simp [applyCandidate, ha, hb, jsLt_nan_left]
    | end_ =>
        refine ⟨a, b, ?_, ?_, hab⟩ <;>
          simp [applyCandidate, ha, hb, jsGt_nan_left]

/-- A single pointer-move event preserves `start < end` on finite intervals. -/
theorem handleMarkerDrag_preserves_lt (isD : Bool) (tr : Option Rect)
    (am : Option Marker) (x : ℚ) (vp : Bool) (s : ComponentState) (a b : ℚ)
    (ha : s.cropStartTime = num a) (hb : s.cropEndTime = num b) (hab : a < b) :
    ∃ a' b' : ℚ,
      (handleMarkerDrag isD tr am x vp s).cropStartTime = num a' ∧
      (handleMarkerDrag isD tr am x vp s).cropEndTime = num b' ∧ a' < b' := by
  cases isD <;> cases tr <;> cases am
  case true.some.some timeline marker =>
    exact applyCandidate_preserves_lt marker _ vp s a b ha hb hab
      (derivedCandidateTime_num_or_nan x timeline.left timeline.width
        s.videoDuration)
  all_goals exact ⟨a, b, ha, hb, hab⟩

/-- Every sequence of pointer-move events preserves `start < end` on finite
intervals. -/
theorem dragSequence_preserves_lt (events : List DragEvent) :
    ∀ (s : ComponentState) (a b : ℚ), s.cropStartTime = num a →
      s.cropEndTime = num b → a < b →
      ∃ a' b' : ℚ, (dragSequence s events).cropStartTime = num a' ∧
        (dragSequence s events).cropEndTime = num b' ∧ a' < b' := by
  induction events with
  | nil => exact fun s a b ha hb hab => ⟨a, b, ha, hb, hab⟩
  | cons e es ih =>
      intro s a b ha hb hab
      obtain ⟨a', b', ha', hb', hab'⟩ :=
        handleMarkerDrag_preserves_lt e.isDragging e.timelineRef e.activeMarker
          e.clientX e.videoPresent s a b ha hb hab
      simpa [dragSequence] using
        ih (handleMarkerDrag e.isDragging e.timelineRef e.activeMarker
          e.clientX e.videoPresent s) a' b' ha' hb' hab'

/-! ### Claims -/

/-- C1: during cropping a candidate `t` for the `start` marker is accepted
(`cropStartTime` becomes `t`, and the video is seeked to `t`) exactly when
`t < cropEndTime`, and a candidate for the `end` marker is accepted exactly
when `t > cropStartTime`; rejected candidates leave the state untouched.
Consequently every sequence of drag events starting from a finite interval
with `start < end` preserves `start < end`; since every prefix of such a
sequence is itself a sequence, the invariant holds after every transition. -/
theorem crop_drag_accept_iff_invariant :
    (∀ (s : ComponentState) (b t : ℚ) (vp : Bool), s.cropEndTime = num b →
      applyCandidate Marker.start (num t) vp s =
        if t < b then
          { s with
            cropStartTime := num t
            videoCurrentTime := if vp then num t else s.videoCurrentTime }
        else s) ∧
    (∀ (s : ComponentState) (a t : ℚ) (vp : Bool), s.cropStartTime = num a →
      applyCandidate Marker.end_ (num t) vp s =
        if a < t then
          { s with
            cropEndTime := num t
            videoCurrentTime := if vp then num t else s.videoCurrentTime }
        else s) ∧
    (∀ (s : ComponentState) (a b : ℚ) (events : List DragEvent),
      s.cropStartTime = num a → s.cropEndTime = num b → a < b →
      ∃ a' b' : ℚ, (dragSequence s events).cropStartTime = num a' ∧
        (dragSequence s events).cropEndTime = num b' ∧ a' < b') := by
  refine ⟨?_, ?_, ?_⟩
  · intro s b t vp hb
    by_cases h : t < b <;>
      simp [applyCandidate, hb, jsLt_num_num, h]
  · intro s a t vp ha
    by_cases h : a < t <;>
      simp [applyCandidate, ha, jsGt_num_num, h]
  · intro s a b events ha hb hab
    exact dragSequence_preserves_lt events s a b ha hb hab

/-- Witness for C1, on the 120-second sample state with interval [1, 119]:
dragging `end` to 5 is accepted (5 > 1), dragging `start` to 200 is rejected
(200 ≥ 119), and a two-event drag sequence keeps `start < end`. -/
theorem crop_drag_accept_iff_invariant_witness :
    (applyCandidate Marker.end_ (num 5) true sampleCropState =
      if (1 : ℚ) < 5 then
        { sampleCropState with
          cropEndTime := num 5
          videoCurrentTime := if true then num 5 else sampleCropState.videoCurrentTime }
      else sampleCropState) ∧
    (applyCandidate Marker.start (num 200) true sampleCropState =
      if (200 : ℚ) < 119 then
        { sampleCropState with
          cropStartTime := num 200
          videoCurrentTime := if true then num 200 else sampleCropState.videoCurrentTime }
      else sampleCropState) ∧
    ∃ a' b' : ℚ,
      (dragSequence sampleCropState
        [⟨true, some ⟨60, 0⟩, some Marker.end_, 30, true⟩,
         ⟨true, some ⟨60, 0⟩, some Marker.start, 10, true⟩]).cropStartTime = num a' ∧
      (dragSequence sampleCropState
        [⟨true, some ⟨60, 0⟩, some Marker.end_, 30, true⟩,
         ⟨true, some ⟨60, 0⟩, some Marker.start, 10, true⟩]).cropEndTime = num b' ∧
      a' < b' :=
  ⟨crop_drag_accept_iff_invariant.2.1 sampleCropState 1 5 true rfl,
   crop_drag_accept_iff_invariant.1 sampleCropState 119 200 true rfl,
   crop_drag_accept_iff_invariant.2.2 sampleCropState 1 119 _ rfl rfl
     (by norm_num)⟩

/-- C2 fails as stated: for duration D = 1 (> 0), entering crop mode sets
`start = 1.0` and `end = max(1 − 1, 1 × 0.75) = 0.75`, so `start < end` does
not hold. -/
theorem enterCrop_invariant_counterexample :
    (handleToggleCrop oneSecondIdleState).cropStartTime = num 1 ∧
    (handleToggleCrop oneSecondIdleState).cropEndTime = num (3 / 4) ∧
    ¬ ((1 : ℚ) < 3 / 4) := by
  refine ⟨?_, ?_, by norm_num⟩ <;>
    norm_num [handleToggleCrop, oneSecondIdleState]

/-- C2 amended: for every duration D > 4/3 (rather than D > 0), entering crop
mode sets `start = 1.0` and `end = max(D − 1.0, D × 0.75)`, and the resulting
interval satisfies `0 ≤ start < end ≤ D`.  (For 0 < D ≤ 4/3 the computed end
is at most the computed start, as the counterexample at D = 1 shows.) -/
theorem enterCrop_invariant_amended (D : ℚ) (hD : 4 / 3 < D)
    (s : ComponentState) (hm : s.cropMode = false) (hd : s.videoDuration = D) :
    (handleToggleCrop s).cropMode = true ∧
    (handleToggleCrop s).cropStartTime = num 1 ∧
    (handleToggleCrop s).cropEndTime = num (max (D - 1) (D * (3 / 4))) ∧
    (0 : ℚ) ≤ 1 ∧ (1 : ℚ) < max (D - 1) (D * (3 / 4)) ∧
    max (D - 1) (D * (3 / 4)) ≤ D := by
  refine ⟨?_, ?_, ?_, by norm_num, ?_, ?_⟩
  · simp [handleToggleCrop, hm]
  · simp [handleToggleCrop, hm]
  · simp [handleToggleCrop, hm, hd]
  · have : (1 : ℚ) < D * (3 / 4) := by linarith
    exact lt_max_of_lt_right this
  · exact max_le (by linarith) (by linarith)

/-- Witness for C2 (amended), at the spec's scenario D = 120: entering crop
mode from the idle sample state yields start = 1.0 and
end = max(119, 90) = 119, with 0 ≤ start < end ≤ 120. -/
theorem enterCrop_invariant_amended_witness :
    (handleToggleCrop sampleIdleState).cropMode = true ∧
    (handleToggleCrop sampleIdleState).cropStartTime = num 1 ∧
    (handleToggleCrop sampleIdleState).cropEndTime =
      num (max ((120 : ℚ) - 1) (120 * (3 / 4))) ∧
    (0 : ℚ) ≤ 1 ∧ (1 : ℚ) < max ((120 : ℚ) - 1) (120 * (3 / 4)) ∧
    max ((120 : ℚ) - 1) (120 * (3 / 4)) ≤ 120 :=
  enterCrop_invariant_amended 120 (by norm_num) sampleIdleState rfl rfl

/-- C3: for width > 0 and duration ≥ 0, the candidate time equals
`clamp((clientX − left) / width, 0, 1) × duration`, and the mapping is a pure
function of its four inputs: two runs on equal inputs give equal times. -/
theorem candidate_time_formula (x l w d : ℚ) (hw : 0 < w) (_hd : 0 ≤ d) :
    derivedCandidateTime x l w d = num (max 0 (min 1 ((x - l) / w)) * d) ∧
    ∀ x' l' w' d' : ℚ, x' = x → l' = l → w' = w → d' = d →
      derivedCandidateTime x' l' w' d' = derivedCandidateTime x l w d := by
  constructor
  · unfold derivedCandidateTime jsDiv
    rw [if_neg (ne_of_gt hw)]
    simp [jsMin, jsMax, jsMulQ]
  · intro x' l' w' d' h1 h2 h3 h4
    rw [h1, h2, h3, h4]

/-- Witness for C3, at clientX = 30, left = 10, width = 40, duration = 100. -/
theorem candidate_time_formula_witness :
    derivedCandidateTime 30 10 40 100 =
      num (max 0 (min 1 (((30 : ℚ) - 10) / 40)) * 100) ∧
    ∀ x' l' w' d' : ℚ, x' = 30 → l' = 10 → w' = 40 → d' = 100 →
      derivedCandidateTime x' l' w' d' = derivedCandidateTime 30 10 40 100 :=
  candidate_time_formula 30 10 40 100 (by norm_num) (by norm_num)

/-- C4: a rejected drag candidate leaves the whole state unchanged — in
particular both `cropStartTime` and `cropEndTime` — with no partial mutation;
the handler is a total function into states and has no error outcome. -/
theorem reject_leaves_state_unchanged (isD : Bool) (r : Rect) (m : Marker)
    (x : ℚ) (vp : Bool) (s : ComponentState)
    (hrej :
      (m = Marker.start →
        jsLt (derivedCandidateTime x r.left r.width s.videoDuration)
          s.cropEndTime = false) ∧
      (m = Marker.end_ →
        jsGt (derivedCandidateTime x r.left r.width s.videoDuration)
          s.cropStartTime = false)) :
    handleMarkerDrag isD (some r) (some m) x vp s = s := by
  cases isD
  · rfl
  · cases m
    · simp [handleMarkerDrag, applyCandidate, hrej.1 rfl]
    · simp [handleMarkerDrag, applyCandidate, hrej.2 rfl]

/-- Witness for C4, at the spec's scenario: dragging the `start` marker of the
[1, 119] interval to candidate time 120 (pointer at the right edge of a
60-pixel timeline, duration 120) is rejected since 120 ≥ 119, and the state is
unchanged. -/
theorem reject_leaves_state_unchanged_witness :
    handleMarkerDrag true (some ⟨60, 0⟩) (some Marker.start) 60 true
      sampleCropState = sampleCropState := by
  refine reject_leaves_state_unchanged true ⟨60, 0⟩ Marker.start 60 true
    sampleCropState ⟨fun _ => ?_, fun h => by cases h⟩
  norm_num [derivedCandidateTime, jsDiv, jsMin, jsMax, jsMulQ, jsLt,
    sampleCropState]

/-- C5: while in crop mode, the apply action emits exactly one value,
`{start, end, shouldRefreshTaskList: true}`, with the interval's fields
verbatim, and the next state has crop mode off (idle). -/
theorem apply_emits_interval_verbatim (s : ComponentState)
    (h : s.cropMode = true) :
    componentStep s UIEvent.applyCrop =
      ({ s with cropMode := false },
       some { start := s.cropStartTime
              end_ := s.cropEndTime
              shouldRefreshTaskList := true }) := by
  simp [componentStep, handleCropApply, h]

/-- Witness for C5, at the spec's scenario interval {start: 1.0, end: 119}:
apply emits exactly `{start: 1, end: 119, shouldRefreshTaskList: true}` and
the subsequent state is idle. -/
theorem apply_emits_interval_verbatim_witness :
    componentStep sampleCropState UIEvent.applyCrop =
      ({ sampleCropState with cropMode := false },
       some { start := sampleCropState.cropStartTime
              end_ := sampleCropState.cropEndTime
              shouldRefreshTaskList := true }) :=
  apply_emits_interval_verbatim sampleCropState rfl

/-- C6 fails as stated: with timeline width 0, left edge 0 and pointer at
clientX = 10, the fraction is `10 / 0 = Infinity`, which the clamp turns into
1, so the candidate time is the full duration 120; dragging the `end` marker
of the [1, 90] interval with that event is accepted (120 > 1), and
`cropEndTime` changes from 90 to 120 — the zero width is not guarded. -/
theorem zero_width_counterexample :
    (handleMarkerDrag true (some ⟨0, 0⟩) (some Marker.end_) 10 true
      zeroWidthDragState).cropEndTime = num 120 ∧
    zeroWidthDragState.cropEndTime = num 90 ∧
    num (120 : ℚ) ≠ num (90 : ℚ) := by
  refine ⟨?_, rfl, by simp⟩
  norm_num [handleMarkerDrag, applyCandidate, derivedCandidateTime, jsDiv,
    jsMin, jsMax, jsMulQ, jsGt, jsLt, zeroWidthDragState]

/-- C6 amended: with width 0 the fraction is `Infinity`, `-Infinity` or `NaN`
according to the pointer's position relative to the left edge, so after
clamping the candidate time is the full duration (pointer right of the edge),
0 (pointer left of the edge), or `NaN` (pointer exactly at the edge).  Only
the `NaN` case is necessarily a no-op (comparisons with `NaN` are false); the
other candidates go through the ordinary accept rule and can move a marker. -/
theorem zero_width_amended (x l d : ℚ) (s : ComponentState) (m : Marker)
    (vp : Bool) :
    (derivedCandidateTime x l 0 d =
      if l < x then num d else if x < l then num 0 else nan) ∧
    (x = l →
      handleMarkerDrag true (some ⟨0, l⟩) (some m) x vp s = s) := by
  constructor
  · unfold derivedCandidateTime jsDiv
    by_cases h1 : l < x
    · have hp : 0 < x - l := by linarith
      norm_num [hp, h1, jsMin, jsMax, jsMulQ]
    · by_cases h2 : x < l
      · have hn : x - l < 0 := by linarith
        have hnp : ¬ 0 < x - l := by linarith
        norm_num [hnp, hn, h1, h2, jsMin, jsMax, jsMulQ]
      · have hxl : x - l = 0 := by
          have := le_antisymm (not_lt.1 h1) (not_lt.1 h2)
          simpa [sub_eq_zero] using this
        simp [hxl, h1, h2, jsMin, jsMax, jsMulQ]
  · intro hx
    subst hx
    cases m <;>
      simp [handleMarkerDrag, applyCandidate, derivedCandidateTime, jsDiv,
        jsMin, jsMax, jsMulQ, jsLt_nan_left, jsGt_nan_left, sub_self]

/-- Witness for C6 (amended), with the pointer exactly at the left edge of a
zero-width timeline: the candidate is `NaN` and the drag handler leaves the
state unchanged. -/
theorem zero_width_amended_witness :
    (derivedCandidateTime 3 3 0 120 =
      if (3 : ℚ) < 3 then num 120 else if (3 : ℚ) < 3 then num 0 else nan) ∧
    handleMarkerDrag true (some ⟨0, 3⟩) (some Marker.start) 3 true
      zeroWidthDragState = zeroWidthDragState := by
  have h := zero_width_amended 3 3 120 zeroWidthDragState Marker.start true
  exact ⟨h.1, h.2 rfl⟩

/-- C7 fails as stated: entering crop mode with duration 0 sets
`cropStartTime` to 1.0 (the unconditional `startTime = 1.0`), not 0, while
`cropEndTime` becomes `max(0 − 1, 0 × 0.75) = 0`; the interval is inverted
(start = 1 > end = 0), not degenerate with start == end == 0. -/
theorem zero_duration_counterexample :
    (handleToggleCrop zeroDurationIdleState).cropStartTime = num 1 ∧
    (handleToggleCrop zeroDurationIdleState).cropEndTime = num 0 ∧
    num (1 : ℚ) ≠ num (0 : ℚ) := by
  refine ⟨?_, ?_, by simp⟩ <;>
    norm_num [handleToggleCrop, zeroDurationIdleState]

/-- C7 amended: if duration is 0 (the `useState(0)` default, before metadata
loads) when entering crop mode, the code sets start = 1.0 and
end = max(0 − 1, 0 × 0.75) = 0, an inverted interval with start > end rather
than a degenerate one; position mapping with duration 0 produces time 0 for
every nonzero width. -/
theorem zero_duration_amended (s : ComponentState) (hm : s.cropMode = false)
    (hd : s.videoDuration = 0) :
    (handleToggleCrop s).cropStartTime = num 1 ∧
    (handleToggleCrop s).cropEndTime = num 0 ∧
    ∀ x l w : ℚ, w ≠ 0 → derivedCandidateTime x l w 0 = num 0 := by
  refine ⟨by simp [handleToggleCrop, hm], ?_, ?_⟩
  · norm_num [handleToggleCrop, hm, hd]
  · intro x l w hw
    unfold derivedCandidateTime jsDiv
    rw [if_neg hw]
    simp [jsMin, jsMax, jsMulQ]

/-- Witness for C7 (amended), on the concrete zero-duration idle state and the
mapping at clientX = 7, left = 2, width = 10. -/
theorem zero_duration_amended_witness :
    (handleToggleCrop zeroDurationIdleState).cropStartTime = num 1 ∧
    (handleToggleCrop zeroDurationIdleState).cropEndTime = num 0 ∧
    derivedCandidateTime 7 2 10 0 = num 0 := by
  have h := zero_duration_amended zeroDurationIdleState rfl rfl
  exact ⟨h.1, h.2.1, h.2.2 7 2 10 (by norm_num)⟩

/-- C8: while in crop mode, the cancel action moves to idle (crop mode off)
emitting no value, and — across every event the component handles — a value is
emitted only by the apply action fired in crop mode, so nothing is ever
emitted on cancel or while idle.  (The interval is discarded in the sense of
the spec's data model: in the idle state no markers are rendered, and
re-entering crop mode recomputes both boundaries from the duration.) -/
theorem cancel_no_emission :
    (∀ s : ComponentState, s.cropMode = true →
      componentStep s UIEvent.cancelCrop =
        ({ s with cropMode := false }, none)) ∧
    (∀ (s : ComponentState) (e : UIEvent),
      (componentStep s e).2 ≠ none → e = UIEvent.applyCrop ∧
        s.cropMode = true) := by
  constructor
  · intro s h
    simp [componentStep, h]
  · intro s e h
    cases e with
    | toggleCrop => by_cases hm : s.cropMode <;> simp [componentStep, hm] at h
    | applyCrop =>
        by_cases hm : s.cropMode
        · exact ⟨rfl, hm⟩
        · simp [componentStep, hm] at h
    | cancelCrop => by_cases hm : s.cropMode <;> simp [componentStep, hm] at h
    | drag ev => simp [componentStep] at h

/-- Witness for C8: cancelling from the cropping sample state reaches the
idle state with no emission, and the only emitting event is apply in crop
mode. -/
theorem cancel_no_emission_witness :
    componentStep sampleCropState UIEvent.cancelCrop =
      ({ sampleCropState with cropMode := false }, none) ∧
    (UIEvent.applyCrop = UIEvent.applyCrop ∧ sampleCropState.cropMode = true) := by
  refine ⟨cancel_no_emission.1 sampleCropState rfl,
    cancel_no_emission.2 sampleCropState UIEvent.applyCrop ?_⟩
  simp [componentStep, handleCropApply, sampleCropState]

/-- C9: with absent (`none`) or empty waveform data, the rendered waveform has
the synthetic length `clamp(⌈duration × 2⌉, 100, 1000)`; with absent or empty
frame data, the thumbnail strip has the synthetic length
`clamp(⌈duration / 3⌉, 50, 300)`; for duration 50 the waveform length is
100. -/
theorem synthetic_lane_lengths (D : ℚ) :
    renderedWaveformCount none (waveformCount D) =
      min 1000 (max 100 ⌈D * 2⌉) ∧
    renderedWaveformCount (some []) (waveformCount D) =
      min 1000 (max 100 ⌈D * 2⌉) ∧
    renderedThumbnailCount none (thumbnailCount D) =
      min 300 (max 50 ⌈D / 3⌉) ∧
    renderedThumbnailCount (some []) (thumbnailCount D) =
      min 300 (max 50 ⌈D / 3⌉) ∧
    renderedWaveformCount none (waveformCount 50) = 100 := by
  refine ⟨rfl, rfl, rfl, rfl, ?_⟩
  have h : ⌈(50 : ℚ) * 2⌉ = 100 := by norm_num
  norm_num [renderedWaveformCount, waveformCount, h]

/-- C10: a pointer-move event delivered while the dragging flag is off, or
with no timeline element, or with no active marker, changes nothing: the
handler returns the state unchanged (crop interval and video playback
position included). -/
theorem drag_guard_noop (isD : Bool) (tr : Option Rect) (am : Option Marker)
    (x : ℚ) (vp : Bool) (s : ComponentState)
    (h : isD = false ∨ tr = none ∨ am = none) :
    handleMarkerDrag isD tr am x vp s = s := by
  rcases h with rfl | rfl | rfl
  · cases tr <;> cases am <;> rfl
  · cases isD <;> cases am <;> rfl
  · cases isD <;> cases tr <;> rfl

/-- Witness for C10: a pointer move with the dragging flag off leaves the
cropping sample state unchanged. -/
theorem drag_guard_noop_witness :
    handleMarkerDrag false (some ⟨60, 0⟩) (some Marker.start) 30 true
      sampleCropState = sampleCropState :=
  drag_guard_noop false (some ⟨60, 0⟩) (some Marker.start) 30 true
    sampleCropState (Or.inl rfl)
